import Mathlib

/-! Shallow embedding of the selection cuts and classification variables in
`include/cuts.h` and `include/variables.h` of `spine_anaplot_tools`.

Conventions of the embedding:
* C++ `double` fields are modelled as exact rationals; `flash_time` carries an
  explicit NaN flag, since the code tests `std::isnan(flash_time)` before any
  comparison.  Decimal constants are written with `mkRat` (e.g.
  `mkRat 143425 1000` for the literal `143.425`).
* Integer-valued fields (`pid`, `nu_id`, `current_type`, `pdg_code`,
  `interaction_mode`, `is_flash_matched`) are modelled as `Int`.
* `std::vector` indexing is modelled as checked access, so an out-of-bounds
  `operator[]` (undefined behaviour in C++) surfaces as `Option.none`; every
  function whose evaluation can reach such an access is `Option`-valued.
* The truth/reco template dispatch
  (`std::is_same_v<T, caf::SRParticleTruthDLPProxy>`) is modelled by an
  explicit `truth : Bool` parameter.
-/

/-- A particle record (`caf::SRParticleDLPProxy` / `caf::SRParticleTruthDLPProxy`),
restricted to the fields the cuts and variables under verification read. -/
structure Particle where
  is_primary : Bool
  pid : Int
  energy_deposit : ℚ
  calo_ke : ℚ
  csda_ke : ℚ
  match_ids : List Int

/-- An interaction record (`caf::SRInteractionDLPProxy` /
`caf::SRInteractionTruthDLPProxy`), restricted to the fields the cuts and
variables under verification read.  `vertex0`, `vertex1`, `vertex2` are the
components of the fixed-size `vertex` array. -/
structure Interaction where
  particles : List Particle
  vertex0 : ℚ
  vertex1 : ℚ
  vertex2 : ℚ
  is_fiducial : Bool
  is_contained : Bool
  nu_id : Int
  current_type : Int
  pdg_code : Int
  interaction_mode : Int
  flash_time : ℚ
  flash_time_isnan : Bool
  is_flash_matched : Int
  match_ids : List Int

namespace cuts

/-- `cuts::matched`: `obj.match_ids.size() > 0`. -/
def matched (i : Interaction) : Bool :=
  decide (0 < i.match_ids.length)

/-- `cuts::valid_flashmatch`:
`!std::isnan(interaction.flash_time) && interaction.is_flash_matched == 1`. -/
def valid_flashmatch (i : Interaction) : Bool :=
  !i.flash_time_isnan && (i.is_flash_matched == 1)

/-- The local `energy` selection inside `cuts::final_state_signal`:
`p.pid > 1 ? p.csda_ke : p.calo_ke`, overridden by `p.energy_deposit` for the
truth particle type. -/
def kinetic_energy (truth : Bool) (p : Particle) : ℚ :=
  if truth then p.energy_deposit
  else if p.pid > 1 then p.csda_ke else p.calo_ke

/-- `cuts::final_state_signal`: primary, and
`(pid == 2 && energy > 143.425) || (pid != 2 && pid < 4 && energy > 25) ||
(pid == 4 && energy > 50)`. -/
def final_state_signal (truth : Bool) (p : Particle) : Bool :=
  if p.is_primary then
    (p.pid == 2 && decide (kinetic_energy truth p > mkRat 143425 1000)) ||
    (p.pid != 2 && decide (p.pid < 4) && decide (kinetic_energy truth p > 25)) ||
    (p.pid == 4 && decide (kinetic_energy truth p > 50))
  else false

/-- The increment `++counts[p.pid]` of `cuts::count_primaries`, with the
`std::vector` bounds made explicit: `none` models the out-of-bounds
(undefined-behaviour) case. -/
def incrAt (counts : List Nat) (pid : Int) : Option (List Nat) :=
  if 0 ≤ pid ∧ pid.toNat < counts.length then
    some (counts.set pid.toNat (counts.getD pid.toNat 0 + 1))
  else none

/-- `cuts::count_primaries`: starting from `std::vector<uint32_t> counts(5, 0)`,
increment `counts[p.pid]` for every particle passing `final_state_signal`. -/
def count_primaries (truth : Bool) (i : Interaction) : Option (List Nat) :=
  i.particles.foldlM
    (fun counts p =>
      if final_state_signal truth p then incrAt counts p.pid else some counts)
    (List.replicate 5 0)

/-- `cuts::topology`: renders the counts as
`counts[0] << "ph" << counts[1] << "e" << counts[2] << "mu" << counts[3] <<
"pi" << counts[4] << "p"`. -/
def topology (truth : Bool) (i : Interaction) : Option String := do
  let counts ← count_primaries truth i
  let c0 ← counts.get? 0
  let c1 ← counts.get? 1
  let c2 ← counts.get? 2
  let c3 ← counts.get? 3
  let c4 ← counts.get? 4
  pure (toString c0 ++ "ph" ++ toString c1 ++ "e" ++ toString c2 ++ "mu" ++
    toString c3 ++ "pi" ++ toString c4 ++ "p")

/-- `cuts::topological_1muNp_cut`:
`c[0] == 0 && c[1] == 0 && c[2] == 1 && c[3] == 0 && c[4] >= 1 && c[5] == 0`,
with C++ short-circuit evaluation order and checked indexing (note that the
final conjunct reads `c[5]` of the 5-element vector). -/
def topological_1muNp_cut (truth : Bool) (i : Interaction) : Option Bool := do
  let c ← count_primaries truth i
  let c0 ← c.get? 0
  if c0 == 0 then do
    let c1 ← c.get? 1
    if c1 == 0 then do
      let c2 ← c.get? 2
      if c2 == 1 then do
        let c3 ← c.get? 3
        if c3 == 0 then do
          let c4 ← c.get? 4
          if 1 ≤ c4 then do
            let c5 ← c.get? 5
            pure (c5 == 0)
          else pure false
        else pure false
      else pure false
    else pure false
  else pure false

/-- `cuts::fiducial_cut`: `is_fiducial && !(vertex[0] > 210.215 &&
vertex[1] > 60 && (vertex[2] > 290 && vertex[2] < 390))`. -/
def fiducial_cut (i : Interaction) : Bool :=
  i.is_fiducial &&
    !(decide (i.vertex0 > mkRat 210215 1000) && decide (i.vertex1 > 60) &&
      (decide (i.vertex2 > 290) && decide (i.vertex2 < 390)))

/-- `cuts::containment_cut`: `interaction.is_contained`. -/
def containment_cut (i : Interaction) : Bool :=
  i.is_contained

/-- `cuts::flash_cut_bnb`: `valid_flashmatch` and then
`flash_time >= 0 && flash_time <= 1.6`. -/
def flash_cut_bnb (i : Interaction) : Bool :=
  if !valid_flashmatch i then false
  else decide (i.flash_time ≥ 0) && decide (i.flash_time ≤ mkRat 16 10)

/-- `cuts::flash_cut_numi`: `valid_flashmatch` and then
`flash_time >= 0 && flash_time <= 9.6`. -/
def flash_cut_numi (i : Interaction) : Bool :=
  if !valid_flashmatch i then false
  else decide (i.flash_time ≥ 0) && decide (i.flash_time ≤ mkRat 96 10)

/-- `cuts::all_1muNp_cut`: `topological_1muNp_cut && fiducial_cut &&
containment_cut && flash_cut_numi`, with C++ short-circuit order. -/
def all_1muNp_cut (truth : Bool) (i : Interaction) : Option Bool := do
  let t ← topological_1muNp_cut truth i
  if t then pure (fiducial_cut i && containment_cut i && flash_cut_numi i)
  else pure false

/-- `cuts::neutrino`: `interaction.nu_id > -1`. -/
def neutrino (i : Interaction) : Bool :=
  decide (i.nu_id > -1)

/-- `cuts::cosmic`: `interaction.nu_id == -1`. -/
def cosmic (i : Interaction) : Bool :=
  i.nu_id == -1

/-- `cuts::signal_1muNp`: `topological_1muNp_cut && neutrino`. -/
def signal_1muNp (truth : Bool) (i : Interaction) : Option Bool := do
  let t ← topological_1muNp_cut truth i
  if t then pure (neutrino i) else pure false

/-- `cuts::other_nu_1muNp`: `!topological_1muNp_cut && neutrino`. -/
def other_nu_1muNp (truth : Bool) (i : Interaction) : Option Bool := do
  let t ← topological_1muNp_cut truth i
  if !t then pure (neutrino i) else pure false

end cuts

namespace vars

/-- `vars::category`: default 3 (cosmic); `signal_1muNp` gives 0 when
`fiducial_cut && containment_cut` and 1 otherwise; else `other_nu_1muNp`
gives 2.  The `double` label is modelled as `Nat`. -/
def category (truth : Bool) (i : Interaction) : Option Nat := do
  let s ← cuts.signal_1muNp truth i
  if s then
    if cuts.fiducial_cut i && cuts.containment_cut i then pure 0 else pure 1
  else do
    let o ← cuts.other_nu_1muNp truth i
    if o then pure 2 else pure 3

/-- `vars::category_topology`: default 6; the branch structure of
`variables.h` lines 86-103, with the `uint16_t` label modelled as `Nat`. -/
def category_topology (truth : Bool) (i : Interaction) : Option Nat :=
  if i.nu_id ≥ 0 then do
    let counts ← cuts.count_primaries truth i
    let c0 ← counts.get? 0
    let c1 ← counts.get? 1
    let c2 ← counts.get? 2
    let c3 ← counts.get? 3
    let c4 ← counts.get? 4
    if c0 == 0 && c1 == 0 && c2 == 1 then
      if c3 == 0 && c4 == 1 && i.is_contained && i.is_fiducial then pure 2
      else if c3 == 0 && c4 == 1 then pure 7
      else if c3 == 0 && c4 == 0 then pure 4
      else if c3 == 0 && decide (c4 > 1) && i.is_contained && i.is_fiducial then
        pure 2
      else if c3 == 0 && decide (c4 > 1) then pure 7
      else if c3 == 1 && c4 == 1 then pure 4
      else if i.current_type == 0 then pure 4
      else pure 6
    else if i.current_type == 0 then pure 4
    else if i.current_type == 1 then pure 5
    else pure 6
  else pure 6

/-- `vars::category_interaction_mode`: default 7 (cosmic); for `nu_id > -1`,
branch on `current_type`, `abs(pdg_code) == 14` and `interaction_mode`.
The `double` label is modelled as `Nat`. -/
def category_interaction_mode (i : Interaction) : Nat :=
  if i.nu_id > -1 then
    if i.current_type == 0 then
      if i.pdg_code.natAbs == 14 then
        if i.interaction_mode == 0 then 0
        else if i.interaction_mode == 1 then 1
        else if i.interaction_mode == 10 then 2
        else if i.interaction_mode == 2 then 3
        else if i.interaction_mode == 3 then 4
        else 8
      else 5
    else 6
  else 7

end vars


/-! Concrete records used as failing inputs and witnesses. -/

/-- A primary muon with 200 MeV of kinetic energy in every energy field. -/
def muon200 : Particle := ⟨true, 2, 200, 200, 200, []⟩

/-- A primary proton with 60 MeV of kinetic energy in every energy field. -/
def proton60 : Particle := ⟨true, 4, 60, 60, 60, []⟩

/-- A primary proton with 90 MeV of kinetic energy in every energy field. -/
def proton90 : Particle := ⟨true, 4, 90, 90, 90, []⟩

/-- A primary muon whose kinetic energy is exactly 143.425 in every energy
field. -/
def muonBoundary : Particle :=
  ⟨true, 2, mkRat 143425 1000, mkRat 143425 1000, mkRat 143425 1000, []⟩

/-- A 1-muon-1-proton neutrino interaction: fiducial, contained, flash-matched
at time 1.0, vertex at the origin, `nu_id = 0`. -/
def oneMuNp : Interaction :=
  ⟨[muon200, proton60], 0, 0, 0, true, true, 0, 0, 14, 0, 1, false, 1, [0]⟩

/-- The scenario of spec section 8: one primary muon (200 MeV), two primary
protons (60 and 90 MeV), fiducial, contained, vertex at the origin, flash
matched at time 1.0, `nu_id = 0`, `current_type = 0`, `pdg_code = 14`,
`interaction_mode = 0`. -/
def specScenario : Interaction :=
  ⟨[muon200, proton60, proton90], 0, 0, 0, true, true, 0, 0, 14, 0, 1, false, 1,
    [0]⟩

/-- An interaction with `nu_id = -2` and no particles. -/
def nuIdMinusTwo : Interaction :=
  ⟨[], 0, 0, 0, true, true, -2, 0, 14, 0, 1, false, 1, []⟩

/-! Theorems settling the claims. -/

/-- Claim C1: the claim states that `topological_1muNp_cut` returns true
exactly when the counts from `count_primaries` satisfy photon==0, electron==0,
muon==1, pion==0 and proton>=1, with no further conditions.  On `oneMuNp` the
primary counts are `[0, 0, 1, 0, 1]`, so all five conditions hold, yet the cut
does not return true: after the five in-bounds checks succeed the code reads
`c[5]` of the 5-element count vector, an out-of-bounds access (`none` in this
embedding). -/
theorem C1_topological_1muNp_cut_reads_oob :
    cuts.count_primaries false oneMuNp = some [0, 0, 1, 0, 1] ∧
    cuts.topological_1muNp_cut false oneMuNp = none := by
  decide

/-- Claim C2: the claim states that every interaction-level cut performs only
in-bounds accesses on every input.  On `oneMuNp`, `topological_1muNp_cut`
(and hence `all_1muNp_cut` and `signal_1muNp`, which call it) reaches the
out-of-bounds read `c[5]` of the 5-element count vector. -/
theorem C2_cuts_not_total :
    cuts.topological_1muNp_cut false oneMuNp = none ∧
    cuts.all_1muNp_cut false oneMuNp = none ∧
    cuts.signal_1muNp false oneMuNp = none := by
  decide

/-- Claim C3: the claim states that `category` always returns a value in
{0,1,2,3} and returns 0 on a signal interaction that is fiducial and
contained.  On `oneMuNp` (a fiducial, contained neutrino interaction with
primary counts `[0, 0, 1, 0, 1]`) `category` instead reaches the out-of-bounds
read `c[5]` inside `signal_1muNp` and produces no value at all. -/
theorem C3_category_reads_oob :
    vars.category false oneMuNp = none := by
  decide

/-- Claim C5: the claim states that `all_1muNp_cut` is the conjunction of
`topological_1muNp_cut`, `fiducial_cut`, `containment_cut` and
`flash_cut_numi`, so that the spec section-8 scenario passes it.  On
`specScenario` the three total sub-cuts pass and the primary counts are
`[0, 0, 1, 0, 2]` (so the topological conditions hold as well), yet
`all_1muNp_cut` produces no value: its first conjunct reaches the
out-of-bounds read `c[5]`. -/
theorem C5_all_1muNp_cut_reads_oob :
    cuts.fiducial_cut specScenario = true ∧
    cuts.containment_cut specScenario = true ∧
    cuts.flash_cut_numi specScenario = true ∧
    cuts.count_primaries false specScenario = some [0, 0, 1, 0, 2] ∧
    cuts.all_1muNp_cut false specScenario = none := by
  decide

/-- Claim C4: `final_state_signal` passes exactly the primary particles whose
type and kinetic energy satisfy: Muon (pid 2) with energy strictly above
143.425, Photon/Electron/Pion (pid 0, 1, 3) with energy strictly above 25, or
Proton (pid 4) with energy strictly above 50, where the kinetic energy is
`energy_deposit` for the truth variant and `calo_ke`/`csda_ke` (pid < 2 /
pid >= 2) for the reconstructed variant; a particle of type Other (pid 5)
never passes, and a primary muon with kinetic energy exactly 143.425 fails. -/
theorem C4_final_state_signal_iff (truth : Bool) (p : Particle)
    (h0 : 0 ≤ p.pid) (h5 : p.pid ≤ 5) :
    (cuts.final_state_signal truth p = true ↔
      (p.is_primary = true ∧
        ((p.pid = 2 ∧ cuts.kinetic_energy truth p > mkRat 143425 1000) ∨
         ((p.pid = 0 ∨ p.pid = 1 ∨ p.pid = 3) ∧
           cuts.kinetic_energy truth p > 25) ∨
         (p.pid = 4 ∧ cuts.kinetic_energy truth p > 50)))) ∧
    (p.pid = 5 → cuts.final_state_signal truth p = false) ∧
    cuts.final_state_signal truth muonBoundary = false := by
  refine ⟨?_, ?_, ?_⟩
  · unfold cuts.final_state_signal
    cases hp : p.is_primary
    · simp
    · simp only [if_true, Bool.or_eq_true, Bool.and_eq_true, decide_eq_true_eq,
        beq_iff_eq, bne_iff_ne, true_and, eq_self_iff_true]
      constructor
      · rintro ((⟨h1, h2⟩ | ⟨⟨h1, h2⟩, h3⟩) | ⟨h1, h2⟩)
        · exact Or.inl ⟨h1, h2⟩
        · exact Or.inr (Or.inl ⟨by omega, h3⟩)
        · exact Or.inr (Or.inr ⟨h1, h2⟩)
      · rintro (⟨h1, h2⟩ | ⟨h1, h3⟩ | ⟨h1, h2⟩)
        · exact Or.inl (Or.inl ⟨h1, h2⟩)
        · exact Or.inl (Or.inr ⟨⟨by omega, by omega⟩, h3⟩)
        · exact Or.inr ⟨h1, h2⟩
  · intro h
    simp [cuts.final_state_signal, h]
  · cases truth <;> decide

/-- Witness for claim C4: the iff evaluated at the reconstructed primary muon
`muon200`, whose pid 2 lies in the type-code range. -/
theorem C4_final_state_signal_iff_witness :
    (cuts.final_state_signal false muon200 = true ↔
      (muon200.is_primary = true ∧
        ((muon200.pid = 2 ∧ cuts.kinetic_energy false muon200 > mkRat 143425 1000) ∨
         ((muon200.pid = 0 ∨ muon200.pid = 1 ∨ muon200.pid = 3) ∧
           cuts.kinetic_energy false muon200 > 25) ∨
         (muon200.pid = 4 ∧ cuts.kinetic_energy false muon200 > 50)))) ∧
    (muon200.pid = 5 → cuts.final_state_signal false muon200 = false) ∧
    cuts.final_state_signal false muonBoundary = false :=
  C4_final_state_signal_iff false muon200 (by decide) (by decide)

/-- Claim C7: `category_interaction_mode` returns 7 when `nu_id <= -1`;
otherwise for CC (`current_type == 0`) muon-flavor (`abs(pdg_code) == 14`)
interactions it maps `interaction_mode` 0, 1, 10, 2, 3 to 0, 1, 2, 3, 4 and
every other mode to 8; for CC non-muon-flavor it returns 5; for NC
(`current_type == 1`) it returns 6. -/
theorem C7_category_interaction_mode_cases (i : Interaction) :
    (i.nu_id ≤ -1 → vars.category_interaction_mode i = 7) ∧
    (-1 < i.nu_id → i.current_type = 0 → i.pdg_code.natAbs = 14 →
      ((i.interaction_mode = 0 → vars.category_interaction_mode i = 0) ∧
       (i.interaction_mode = 1 → vars.category_interaction_mode i = 1) ∧
       (i.interaction_mode = 10 → vars.category_interaction_mode i = 2) ∧
       (i.interaction_mode = 2 → vars.category_interaction_mode i = 3) ∧
       (i.interaction_mode = 3 → vars.category_interaction_mode i = 4) ∧
       (i.interaction_mode ≠ 0 → i.interaction_mode ≠ 1 →
        i.interaction_mode ≠ 10 → i.interaction_mode ≠ 2 →
        i.interaction_mode ≠ 3 → vars.category_interaction_mode i = 8))) ∧
    (-1 < i.nu_id → i.current_type = 0 → i.pdg_code.natAbs ≠ 14 →
      vars.category_interaction_mode i = 5) ∧
    (-1 < i.nu_id → i.current_type = 1 →
      vars.category_interaction_mode i = 6) := by
  refine ⟨?_, ?_, ?_, ?_⟩
  · intro h
    simp only [vars.category_interaction_mode]
    rw [if_neg (by omega)]
  · intro h1 h2 h3
    refine ⟨?_, ?_, ?_, ?_, ?_, ?_⟩ <;>
      intros <;>
      simp_all [vars.category_interaction_mode, h1]
  · intro h1 h2 h3
    simp_all [vars.category_interaction_mode, h1]
  · intro h1 h2
    simp_all [vars.category_interaction_mode, h1]

/-- Witness for claim C7: the theorem applied to `specScenario`
(`nu_id = 0`, CC, muon flavor, `interaction_mode = 0`), giving label 0. -/
theorem C7_category_interaction_mode_witness :
    vars.category_interaction_mode specScenario = 0 :=
  ((C7_category_interaction_mode_cases specScenario).2.1 (by decide) (by decide)
    (by decide)).1 (by decide)

/-- Claim C9: the neutrino/cosmic classification is not exhaustive: for an
interaction with `nu_id < -1` both `neutrino` and `cosmic` return false, and
yet, when `signal_1muNp` and `other_nu_1muNp` both evaluate to false,
`category` still returns the cosmic-background label 3. -/
theorem C9_neutrino_cosmic_gap (truth : Bool) (i : Interaction)
    (h : i.nu_id < -1)
    (hs : cuts.signal_1muNp truth i = some false)
    (ho : cuts.other_nu_1muNp truth i = some false) :
    cuts.neutrino i = false ∧ cuts.cosmic i = false ∧
    vars.category truth i = some 3 := by
  refine ⟨?_, ?_, ?_⟩
  · simp only [cuts.neutrino, decide_eq_false_iff_not]
    omega
  · simp only [cuts.cosmic, beq_eq_false_iff_ne, ne_eq]
    omega
  · simp [vars.category, hs, ho]

/-- Witness for claim C9: the theorem applied to `nuIdMinusTwo`
(`nu_id = -2`, no particles). -/
theorem C9_neutrino_cosmic_gap_witness :
    cuts.neutrino nuIdMinusTwo = false ∧ cuts.cosmic nuIdMinusTwo = false ∧
    vars.category false nuIdMinusTwo = some 3 :=
  C9_neutrino_cosmic_gap false nuIdMinusTwo (by decide) (by decide) (by decide)

/-- Claim C8: `topology` renders the five counts of `count_primaries` in the
fixed field order photon, electron, muon, pion, proton with the separators
"ph", "e", "mu", "pi", "p" and nothing else; counts `[0, 0, 1, 0, 2]` give
exactly the string "0ph0e1mu0pi2p". -/
theorem C8_topology_label (truth : Bool) (i : Interaction)
    (c0 c1 c2 c3 c4 : Nat)
    (hc : cuts.count_primaries truth i = some [c0, c1, c2, c3, c4]) :
    cuts.topology truth i =
      some (toString c0 ++ "ph" ++ toString c1 ++ "e" ++ toString c2 ++ "mu" ++
        toString c3 ++ "pi" ++ toString c4 ++ "p") ∧
    (c0 = 0 → c1 = 0 → c2 = 1 → c3 = 0 → c4 = 2 →
      cuts.topology truth i = some "0ph0e1mu0pi2p") := by
  have h1 : cuts.topology truth i =
      some (toString c0 ++ "ph" ++ toString c1 ++ "e" ++ toString c2 ++ "mu" ++
        toString c3 ++ "pi" ++ toString c4 ++ "p") := by
    simp only [cuts.topology]
    rw [hc]
    rfl
  refine ⟨h1, ?_⟩
  intro e0 e1 e2 e3 e4
  subst e0; subst e1; subst e2; subst e3; subst e4
  rw [h1]
  rfl

/-- Witness for claim C8: `specScenario` has primary counts `[0, 0, 1, 0, 2]`
and topology string "0ph0e1mu0pi2p". -/
theorem C8_topology_label_witness :
    cuts.topology false specScenario = some "0ph0e1mu0pi2p" :=
  (C8_topology_label false specScenario 0 0 1 0 2 (by decide)).2
    rfl rfl rfl rfl rfl

/-- A particle passing `final_state_signal` has `pid < 5`: each of the three
clauses requires pid 2, pid < 4, or pid 4. -/
theorem final_state_signal_pid_lt (truth : Bool) (p : Particle)
    (h : cuts.final_state_signal truth p = true) : p.pid < 5 := by
  unfold cuts.final_state_signal at h
  cases hp : p.is_primary <;> rw [hp] at h
  · simp at h
  · simp only [if_true, Bool.or_eq_true, Bool.and_eq_true, decide_eq_true_eq,
      beq_iff_eq, bne_iff_ne] at h
    rcases h with (⟨h1, -⟩ | ⟨⟨-, h2⟩, -⟩) | ⟨h1, -⟩ <;> omega

/-- The counting loop of `count_primaries` succeeds and preserves the length
of the count vector whenever every particle has a non-negative pid. -/
theorem count_primaries_loop_total (truth : Bool) (ps : List Particle) :
    ∀ acc : List Nat, acc.length = 5 → (∀ p ∈ ps, 0 ≤ p.pid) →
      ∃ c, ps.foldlM (fun counts p =>
          if cuts.final_state_signal truth p then cuts.incrAt counts p.pid
          else some counts) acc = some c ∧ c.length = 5 := by
  induction ps with
  | nil =>
    intro acc ha _
    exact ⟨acc, rfl, ha⟩
  | cons p ps ih =>
    intro acc ha h
    rw [List.foldlM_cons]
    by_cases hf : cuts.final_state_signal truth p = true
    · have hlt : p.pid < 5 := final_state_signal_pid_lt truth p hf
      have h0 : 0 ≤ p.pid := h p (List.mem_cons_self p ps)
      have hstep : cuts.incrAt acc p.pid =
          some (acc.set p.pid.toNat (acc.getD p.pid.toNat 0 + 1)) := by
        unfold cuts.incrAt
        rw [if_pos ⟨h0, by omega⟩]
      rw [hf]
      simp only [if_true, hstep, Option.some_bind]
      exact ih _ (by simp [ha]) (fun q hq => h q (List.mem_cons_of_mem p hq))
    · rw [Bool.not_eq_true] at hf
      rw [hf]
      simp only [Bool.false_eq_true, if_false, Option.some_bind]
      exact ih _ ha (fun q hq => h q (List.mem_cons_of_mem p hq))

/-- Claim C10: on an interaction whose particles all have a type code in
{0,...,5}, `count_primaries` performs only in-bounds increments and returns a
vector of exactly 5 counts, because `final_state_signal` only passes
particles with pid in {0,...,4} (never type Other, pid 5). -/
theorem C10_count_primaries_inbounds (truth : Bool) (i : Interaction)
    (h : ∀ p ∈ i.particles, 0 ≤ p.pid ∧ p.pid ≤ 5) :
    (∃ c, cuts.count_primaries truth i = some c ∧ c.length = 5) ∧
    ∀ p ∈ i.particles, cuts.final_state_signal truth p = true →
      0 ≤ p.pid ∧ p.pid < 5 := by
  constructor
  · exact count_primaries_loop_total truth i.particles (List.replicate 5 0)
      (by simp) (fun p hp => (h p hp).1)
  · intro p hp hf
    exact ⟨(h p hp).1, final_state_signal_pid_lt truth p hf⟩

/-- Witness for claim C10: the theorem applied to `specScenario`, whose three
particles have pids 2, 4, 4. -/
theorem C10_count_primaries_inbounds_witness :
    (∃ c, cuts.count_primaries false specScenario = some c ∧ c.length = 5) ∧
    ∀ p ∈ specScenario.particles, cuts.final_state_signal false p = true →
      0 ≤ p.pid ∧ p.pid < 5 :=
  C10_count_primaries_inbounds false specScenario (by decide)

/-- Evaluation of `category_topology` once the count vector is known: the
nested branch structure of `variables.h` on the five counts. -/
theorem category_topology_eval (truth : Bool) (i : Interaction)
    (c0 c1 c2 c3 c4 : Nat)
    (hc : cuts.count_primaries truth i = some [c0, c1, c2, c3, c4])
    (h : i.nu_id ≥ 0) :
    vars.category_topology truth i =
      (if c0 == 0 && c1 == 0 && c2 == 1 then
        if c3 == 0 && c4 == 1 && i.is_contained && i.is_fiducial then some 2
        else if c3 == 0 && c4 == 1 then some 7
        else if c3 == 0 && c4 == 0 then some 4
        else if c3 == 0 && decide (c4 > 1) && i.is_contained && i.is_fiducial
          then some 2
        else if c3 == 0 && decide (c4 > 1) then some 7
        else if c3 == 1 && c4 == 1 then some 4
        else if i.current_type == 0 then some 4
        else some 6
      else if i.current_type == 0 then some 4
      else if i.current_type == 1 then some 5
      else some 6) := by
  unfold vars.category_topology
  rw [if_pos h, hc]
  rfl

/-- Claim C6: under `nu_id >= 0` and counts photon 0, electron 0, muon 1,
`category_topology` maps 0 pions with one or more protons to 2 when contained
and fiducial and to 7 otherwise (merging the one-proton and multi-proton
cases), 0 pions 0 protons to 4, 1 pion 1 proton to 4; when the
photon/electron/muon precondition fails, CC gives 4 and NC gives 5; and
`nu_id < 0` gives the default 6. -/
theorem C6_category_topology_cases (truth : Bool) (i : Interaction)
    (c0 c1 c2 c3 c4 : Nat)
    (hc : cuts.count_primaries truth i = some [c0, c1, c2, c3, c4]) :
    (i.nu_id < 0 → vars.category_topology truth i = some 6) ∧
    (0 ≤ i.nu_id → c0 = 0 → c1 = 0 → c2 = 1 → c3 = 0 → 1 ≤ c4 →
      ((i.is_contained = true → i.is_fiducial = true →
         vars.category_topology truth i = some 2) ∧
       (¬(i.is_contained = true ∧ i.is_fiducial = true) →
         vars.category_topology truth i = some 7))) ∧
    (0 ≤ i.nu_id → c0 = 0 → c1 = 0 → c2 = 1 → c3 = 0 → c4 = 0 →
      vars.category_topology truth i = some 4) ∧
    (0 ≤ i.nu_id → c0 = 0 → c1 = 0 → c2 = 1 → c3 = 1 → c4 = 1 →
      vars.category_topology truth i = some 4) ∧
    (0 ≤ i.nu_id → ¬(c0 = 0 ∧ c1 = 0 ∧ c2 = 1) → i.current_type = 0 →
      vars.category_topology truth i = some 4) ∧
    (0 ≤ i.nu_id → ¬(c0 = 0 ∧ c1 = 0 ∧ c2 = 1) → i.current_type = 1 →
      vars.category_topology truth i = some 5) := by
  refine ⟨?_, ?_, ?_, ?_, ?_, ?_⟩
  · intro h
    unfold vars.category_topology
    rw [if_neg (by omega)]
    rfl
  · intro hn e0 e1 e2 e3 h4
    subst e0; subst e1; subst e2; subst e3
    constructor
    · intro hcont hfid
      rw [category_topology_eval truth i 0 0 1 0 c4 hc hn]
      rcases eq_or_lt_of_le h4 with h | h
      · rw [h.symm] at hc ⊢
        simp [hcont, hfid]
      · simp [hcont, hfid, show c4 ≠ 1 by omega, show c4 ≠ 0 by omega, show 1 < c4 from h]
    · intro hncf
      rw [category_topology_eval truth i 0 0 1 0 c4 hc hn]
      cases hcont : i.is_contained <;> cases hfid : i.is_fiducial
      · rcases eq_or_lt_of_le h4 with h | h
        · simp [hcont, h.symm]
        · simp [hcont, show c4 ≠ 1 by omega, show c4 ≠ 0 by omega, show 1 < c4 from h]
      · rcases eq_or_lt_of_le h4 with h | h
        · simp [hcont, h.symm]
        · simp [hcont, show c4 ≠ 1 by omega, show c4 ≠ 0 by omega, show 1 < c4 from h]
      · rcases eq_or_lt_of_le h4 with h | h
        · simp [hcont, hfid, h.symm]
        · simp [hcont, hfid, show c4 ≠ 1 by omega, show c4 ≠ 0 by omega, show 1 < c4 from h]
      · exact absurd ⟨hcont, hfid⟩ hncf
  · intro hn e0 e1 e2 e3 e4
    subst e0; subst e1; subst e2; subst e3; subst e4
    rw [category_topology_eval truth i 0 0 1 0 0 hc hn]
    simp
  · intro hn e0 e1 e2 e3 e4
    subst e0; subst e1; subst e2; subst e3; subst e4
    rw [category_topology_eval truth i 0 0 1 1 1 hc hn]
    simp
  · intro hn hb hct
    have hb' : (c0 == 0 && c1 == 0 && c2 == 1) = false := by
      cases hb2 : (c0 == 0 && c1 == 0 && c2 == 1)
      · rfl
      · exfalso
        simp only [Bool.and_eq_true, beq_iff_eq] at hb2
        exact hb ⟨hb2.1.1, hb2.1.2, hb2.2⟩
    rw [category_topology_eval truth i c0 c1 c2 c3 c4 hc hn]
    simp [hb', hct]
  · intro hn hb hct
    have hb' : (c0 == 0 && c1 == 0 && c2 == 1) = false := by
      cases hb2 : (c0 == 0 && c1 == 0 && c2 == 1)
      · rfl
      · exfalso
        simp only [Bool.and_eq_true, beq_iff_eq] at hb2
        exact hb ⟨hb2.1.1, hb2.1.2, hb2.2⟩
    rw [category_topology_eval truth i c0 c1 c2 c3 c4 hc hn]
    simp [hb', hct]

/-- Witness for claim C6: `specScenario` (counts `[0, 0, 1, 0, 2]`, contained
and fiducial, `nu_id = 0`) gets topology label 2. -/
theorem C6_category_topology_witness :
    vars.category_topology false specScenario = some 2 :=
  ((C6_category_topology_cases false specScenario 0 0 1 0 2 (by decide)).2.1
    (by decide) rfl rfl rfl rfl (by decide)).1 rfl rfl
